import Mathlib

/-!
Shallow embedding of `src/index.ts` of the `env` package: a Proxy-based
environment-variable accessor `ENV` (direct lookup, `opt` sub-view, `num`
sub-view) and a startup validator `ok()` that greps the source tree for
`ENV.(opt.|num.)?NAME` usages and checks each extracted usage against the
live environment.

The environment is modelled as a partial map `String → Option String`
(`none` = the variable is undefined, mirroring `process.env[name]`).
JavaScript `NaN` results of `parseInt` are modelled as `Option.none` in
`Option Int`.
-/

namespace EnvPkg

/-- `process.env` as seen by the program: a map from variable names to
string values, `none` when the variable is undefined. -/
abbrev EnvMap := String → Option String

/-- The error conditions named by the specification.  In the source they
are all thrown as plain `Error`s with a message; the constructors here
record which condition fired and for which name. -/
inductive EnvError where
  | missingRequiredVariable (name : String)
  | invalidNumericVariable (name : String)
  | immutableAccessError
  deriving DecidableEq, Repr

/- ### JavaScript `parseInt` (radix argument omitted) -/

/-- Characters `parseInt` skips as leading whitespace.  Models the
JavaScript StrWhiteSpace set restricted to the characters that can occur
here: ASCII whitespace and NBSP. -/
def jsWhitespace (c : Char) : Bool :=
  c = ' ' || c = '\t' || c = '\n' || c = '\r' ||
  c = Char.ofNat 11 || c = Char.ofNat 12 || c = Char.ofNat 160

/-- Numeric value of a digit character, hex digits included;
`none` for a non-digit.  Written over character codes: 48–57 are `0`–`9`,
97–102 are `a`–`f`, 65–70 are `A`–`F`. -/
def digitVal (c : Char) : Option Nat :=
  let code := c.toNat
  if 48 ≤ code && code ≤ 57 then some (code - 48)
  else if 97 ≤ code && code ≤ 102 then some (code - 87)
  else if 65 ≤ code && code ≤ 70 then some (code - 55)
  else none

/-- Longest prefix of digits valid in the given radix, as digit values. -/
def takeDigits (radix : Nat) : List Char → List Nat
  | [] => []
  | c :: cs =>
    match digitVal c with
    | some d => if d < radix then d :: takeDigits radix cs else []
    | none => []

/-- Interpret a digit-value list in the given radix. -/
def digitsToNat (radix : Nat) (ds : List Nat) : Nat :=
  ds.foldl (fun a d => a * radix + d) 0

/-- Core of `parseInt(s)`: skip leading whitespace, read an optional sign,
detect a `0x`/`0X` prefix (radix 16, otherwise 10), then take the longest
valid digit prefix.  `none` models the JavaScript `NaN` result (no digits
found). -/
def parseIntCore (cs0 : List Char) : Option Int :=
  let cs1 := cs0.dropWhile jsWhitespace
  let (sign, cs2) : Int × List Char :=
    match cs1 with
    | '-' :: rest => (-1, rest)
    | '+' :: rest => (1, rest)
    | _ => (1, cs1)
  let (radix, cs3) : Nat × List Char :=
    match cs2 with
    | '0' :: 'x' :: rest => (16, rest)
    | '0' :: 'X' :: rest => (16, rest)
    | _ => (10, cs2)
  let ds := takeDigits radix cs3
  if ds = [] then none else some (sign * (digitsToNat radix ds : Int))

/-- `parseInt(s)` with the radix argument omitted, as the source calls it.
`none` models `NaN`. -/
def parseIntJS (s : String) : Option Int :=
  parseIntCore s.toList

/- ### The strict extraction regex of the validator

`/ENV\.(opt\.|num\.)?([a-zA-Z0-9_]+)/.exec(line)` — the leftmost match,
with the usual backtracking semantics of the optional group: if `opt.` or
`num.` follows `ENV.` but no word character follows the modifier, the
group backs off to empty and the identifier is `opt` / `num` itself. -/

/-- The two explicit usage modifiers. -/
inductive Modifier where
  | opt
  | num
  deriving DecidableEq, Repr

/-- `[a-zA-Z0-9_]` — the character class of the identifier
(`Char.isAlpha` and `Char.isDigit` are exactly the ASCII ranges). -/
def isWordChar (c : Char) : Bool :=
  c.isAlpha || c.isDigit || c = '_'

/-- Longest prefix of word characters. -/
def takeWord : List Char → List Char
  | [] => []
  | c :: cs => if isWordChar c then c :: takeWord cs else []

/-- Match `(opt\.|num\.)?([a-zA-Z0-9_]+)` at the head of the list,
returning the captured modifier (if the group matched) and the captured
identifier.  `none` when not even one word character can be matched. -/
def matchAfterENV : List Char → Option (Option Modifier × List Char)
  | 'o' :: 'p' :: 't' :: '.' :: c :: cs =>
    if isWordChar c then some (some Modifier.opt, c :: takeWord cs)
    else some (none, ['o', 'p', 't'])
  | 'n' :: 'u' :: 'm' :: '.' :: c :: cs =>
    if isWordChar c then some (some Modifier.num, c :: takeWord cs)
    else some (none, ['n', 'u', 'm'])
  | cs =>
    match takeWord cs with
    | [] => none
    | w => some (none, w)

/-- Try the whole pattern anchored at the head of the list:
literal `ENV.` then `matchAfterENV`. -/
def tryMatchENV : List Char → Option (Option Modifier × List Char)
  | 'E' :: 'N' :: 'V' :: '.' :: cs => matchAfterENV cs
  | _ => none

/-- Scan left to right for the first position where the pattern matches:
the leftmost-match semantics of `RegExp.exec`. -/
def scanENV : List Char → Option (Option Modifier × List Char)
  | [] => none
  | c :: cs =>
    match tryMatchENV (c :: cs) with
    | some r => some r
    | none => scanENV cs

/-- `/ENV\.(opt\.|num\.)?([a-zA-Z0-9_]+)/.exec(line)`: the captured
`(mod, env_var)` of the leftmost match, or `none` when the regex does not
match the line. -/
def strictMatch (line : String) : Option (Option Modifier × String) :=
  (scanENV line.toList).map fun r => (r.1, String.mk r.2)

/- ### The accessor `ENV` -/

/-- `ENV.opt.name`: the `get` trap of the `opt` Proxy returns
`process.env[name]` unchanged (a string, or `undefined` as the absent
sentinel) and never throws. -/
def getOptional (env : EnvMap) (name : String) : Except EnvError (Option String) :=
  Except.ok (env name)

/-- `ENV.num.name`: the `get` trap of the `num` Proxy throws when the
variable is undefined and otherwise returns `parseInt(v)` — which is the
`NaN` sentinel (`none`) when `v` has no parseable leading integer. -/
def getNumeric (env : EnvMap) (name : String) : Except EnvError (Option Int) :=
  match env name with
  | none => Except.error (EnvError.missingRequiredVariable name)
  | some v => Except.ok (parseIntJS v)

/-- What a direct property read of `ENV` can produce: a string value from
the environment, or one of the three built-in members. -/
inductive GetResult where
  | str (s : String)
  | subOpt
  | subNum
  | subOk
  deriving DecidableEq, Repr

/-- `ENV.name`: the outer `get` trap.  The names `num`, `opt`, `ok` are
reflected to the target object (the sub-views and the validator function)
without consulting the environment; any other name is looked up in
`process.env` and throws when undefined. -/
def envGet (env : EnvMap) (name : String) : Except EnvError GetResult :=
  if name = "num" then Except.ok GetResult.subNum
  else if name = "opt" then Except.ok GetResult.subOpt
  else if name = "ok" then Except.ok GetResult.subOk
  else
    match env name with
    | none => Except.error (EnvError.missingRequiredVariable name)
    | some v => Except.ok (GetResult.str v)

/-- The `set` trap of the outer `ENV` Proxy: always throws
`Cannot set env value.`; the environment is passed through unchanged. -/
def envSet (env : EnvMap) (_name _value : String) :
    Except EnvError Unit × EnvMap :=
  (Except.error EnvError.immutableAccessError, env)

/-- The `set` trap of the `opt` sub-view Proxy: always throws. -/
def optSet (env : EnvMap) (_name _value : String) :
    Except EnvError Unit × EnvMap :=
  (Except.error EnvError.immutableAccessError, env)

/-- The `set` trap of the `num` sub-view Proxy: always throws. -/
def numSet (env : EnvMap) (_name _value : String) :
    Except EnvError Unit × EnvMap :=
  (Except.error EnvError.immutableAccessError, env)

/- ### The validator `ok()`: the per-batch stdout handler -/

/-- `util.inspect` of the looked-up value, for the values that occur here:
`undefined`, or a simple string rendered in single quotes (escaping of
special characters inside the string is not modelled). -/
def inspectJS : Option String → String
  | none => "undefined"
  | some s => "\x27" ++ s ++ "\x27"

/-- JavaScript falsiness of `process.env[x]`: `undefined` or `""`. -/
def strFalsy : Option String → Bool
  | none => true
  | some v => v = ""

/-- The fatal condition of the `num.` branch:
`!value || isNaN(parseInt(value))`. -/
def numBad : Option String → Bool
  | none => true
  | some v => v = "" || (parseIntJS v).isNone

/-- The diagnostic of the no-modifier branch, as `console.log` prints it. -/
def strDiag (x : String) (v : Option String) : String :=
  "ENV found required field " ++ x ++ ", but given value " ++ inspectJS v ++
    " is incompatible."

/-- The diagnostic of the `num.` branch, as `console.log` prints it. -/
def numDiag (x : String) (v : Option String) : String :=
  "ENV found required field num." ++ x ++ ", but given value " ++ inspectJS v ++
    " is incompatible."

/-- Outcome of the loop body for one line: either the callback returns /
the process exits (ending the batch, with the logs printed by this line
and the exit code if any), or the loop continues with the next line. -/
inductive StepOut where
  | halt (logs : List String) (exit : Option Nat)
  | next
  deriving DecidableEq, Repr

/-- The body of `for (const line of lines)` in the stdout handler:
empty line → `return`; regex fails → log the first 100 characters and
`return`; `opt.` → `return`; `num.` with a falsy or unparseable value →
log and `process.exit(1)`; no modifier with a falsy value → log and
`process.exit(1)`; otherwise continue with the next line. -/
def lineStep (env : EnvMap) (line : String) : StepOut :=
  if line = "" then StepOut.halt [] none
  else
    match strictMatch line with
    | none =>
      StepOut.halt ["Could not parse ENV grep result: " ++ line.take 100] none
    | some (some Modifier.opt, _) => StepOut.halt [] none
    | some (some Modifier.num, x) =>
      if numBad (env x) then StepOut.halt [numDiag x (env x)] (some 1)
      else StepOut.next
    | some (none, x) =>
      if strFalsy (env x) then StepOut.halt [strDiag x (env x)] (some 1)
      else StepOut.next

/-- Processing of one batch of search-output lines (one `data` chunk split
on newlines): the printed logs and the exit code if `process.exit` was
reached.  `(logs, none)` means the handler returned normally and the
process keeps running. -/
def processLines (env : EnvMap) : List String → List String × Option Nat
  | [] => ([], none)
  | line :: rest =>
    match lineStep env line with
    | StepOut.halt logs exit => (logs, exit)
    | StepOut.next => processLines env rest

end EnvPkg

namespace EnvPkg

/- ### Helper lemmas -/

/-- A line on which the strict extraction regex matches is not empty. -/
theorem strictMatch_ne_empty {line : String} {r : Option Modifier × String}
    (h : strictMatch line = some r) : line ≠ "" := by
  intro he
  rw [he] at h
  have h0 : (none : Option (Option Modifier × String)) = some r := h
  exact Option.noConfusion h0

/-- On a non-reserved name, the outer `get` trap reduces to the plain
environment lookup. -/
theorem envGet_eq_of_not_reserved {n : String} (env : EnvMap)
    (h1 : n ≠ "num") (h2 : n ≠ "opt") (h3 : n ≠ "ok") :
    envGet env n = (match env n with
      | none => Except.error (EnvError.missingRequiredVariable n)
      | some v => Except.ok (GetResult.str v)) := by
  simp [envGet, h1, h2, h3]

/- ### Claim theorems -/

/-- C1: for a search-output line whose extracted usage has no modifier and
whose variable is absent (undefined or empty), or has the `num.` modifier
and whose variable is absent or has no parseable leading integer, the
batch handler prints exactly the one diagnostic naming the variable (and,
for numeric, the unusable value) and reaches `process.exit(1)`; the
remaining lines `rest` are never processed (they do not occur in the
result). -/
theorem c1_required_failure_is_fatal (env : EnvMap) (line : String)
    (rest : List String) (mod : Option Modifier) (x : String)
    (hm : strictMatch line = some (mod, x))
    (hbad : (mod = none ∧ strFalsy (env x) = true) ∨
            (mod = some Modifier.num ∧ numBad (env x) = true)) :
    processLines env (line :: rest) =
      ([if mod = some Modifier.num then numDiag x (env x) else strDiag x (env x)],
        some 1) := by
  have hne : line ≠ "" := strictMatch_ne_empty hm
  rcases hbad with ⟨hm0, hfal⟩ | ⟨hm1, hfal⟩
  · subst hm0
    simp [processLines, lineStep, hne, hm, hfal]
  · subst hm1
    simp [processLines, lineStep, hne, hm, hfal]

/-- Witness for C1: with an empty environment, a batch whose first line
uses `ENV.FOO` exits fatally with the single diagnostic for `FOO`, and
the second line of the batch is never processed. -/
theorem c1_witness :
    processLines (fun _ => none) ["a.ts:let v = ENV.FOO", "a.ts:ENV.BAR"] =
      ([strDiag "FOO" none], some 1) := by
  have h := c1_required_failure_is_fatal (fun _ => none) "a.ts:let v = ENV.FOO"
    ["a.ts:ENV.BAR"] none "FOO" rfl (Or.inl ⟨rfl, rfl⟩)
  simpa using h

/-- C2 counterexample: with `X = "abc"` (no parseable leading integer),
`ENV.num.X` does not fail: it returns the `NaN` sentinel successfully,
contradicting the claim that it fails with `InvalidNumericVariable`. -/
theorem c2_counterexample :
    getNumeric (fun n => if n = "X" then some "abc" else none) "X" =
      Except.ok none ∧
    (Except.ok none : Except EnvError (Option Int)) ≠
      Except.error (EnvError.invalidNumericVariable "X") := by
  exact ⟨rfl, by simp⟩

/-- C2 amended: `getNumeric` fails with `MissingRequiredVariable` when the
name is absent; when the value has a parseable leading integer it returns
that integer; when the value has no parseable leading integer it succeeds
with the `NaN` sentinel (it never raises an invalid-numeric error). -/
theorem c2_amended_getNumeric (env : EnvMap) (n : String) :
    (env n = none →
      getNumeric env n = Except.error (EnvError.missingRequiredVariable n)) ∧
    (∀ v k, env n = some v → parseIntJS v = some k →
      getNumeric env n = Except.ok (some k)) ∧
    (∀ v, env n = some v → parseIntJS v = none →
      getNumeric env n = Except.ok none) := by
  refine ⟨fun h0 => ?_, fun v k hv hk => ?_, fun v hv hk => ?_⟩
  · simp [getNumeric, h0]
  · simp [getNumeric, hv, hk]
  · simp [getNumeric, hv, hk]

/-- Witness for C2 amended: absent `A` fails; `B = "42abc"` yields 42;
`C = "abc"` yields the `NaN` sentinel. -/
theorem c2_amended_witness :
    getNumeric (fun _ => none) "A" =
      Except.error (EnvError.missingRequiredVariable "A") ∧
    getNumeric (fun _ => some "42abc") "B" = Except.ok (some 42) ∧
    getNumeric (fun _ => some "abc") "C" = Except.ok none :=
  ⟨(c2_amended_getNumeric (fun _ => none) "A").1 rfl,
   (c2_amended_getNumeric (fun _ => some "42abc") "B").2.1 "42abc" 42 rfl rfl,
   (c2_amended_getNumeric (fun _ => some "abc") "C").2.2 "abc" rfl rfl⟩

/-- C3 counterexample: a present-but-empty value flows out of the
required-string path without aborting (`ENV.EMPTYVAR` returns `""`), and a
present non-numeric value flows out of the required-numeric path as the
`NaN` sentinel — so callers can observe an empty value. -/
theorem c3_counterexample :
    envGet (fun n => if n = "EMPTYVAR" then some "" else none) "EMPTYVAR" =
      Except.ok (GetResult.str "") ∧
    getNumeric (fun n => if n = "NOTNUM" then some "zzz" else none) "NOTNUM" =
      Except.ok none :=
  ⟨rfl, rfl⟩

/-- C3 amended: callers can never observe an undefined value through the
required paths — an absent variable aborts both — but a present empty
string is returned as-is by the direct path and a present unparseable
value is returned as the `NaN` sentinel by the numeric path: whenever
either path succeeds, its result is exactly the stored value (resp. its
`parseInt`). -/
theorem c3_amended_no_undefined (env : EnvMap) (n : String)
    (hn : n ≠ "num" ∧ n ≠ "opt" ∧ n ≠ "ok") :
    (env n = none →
      envGet env n = Except.error (EnvError.missingRequiredVariable n) ∧
      getNumeric env n = Except.error (EnvError.missingRequiredVariable n)) ∧
    (∀ r, envGet env n = Except.ok r → ∃ v, env n = some v ∧ r = GetResult.str v) ∧
    (∀ x, getNumeric env n = Except.ok x → ∃ v, env n = some v ∧ x = parseIntJS v) := by
  obtain ⟨h1, h2, h3⟩ := hn
  rw [envGet_eq_of_not_reserved env h1 h2 h3]
  cases hv : env n with
  | none =>
    refine ⟨fun _ => ⟨rfl, by simp [getNumeric, hv]⟩, fun r hr => ?_, fun x hx => ?_⟩
    · exact absurd hr (by simp)
    · rw [getNumeric, hv] at hx
      exact absurd hx (by simp)
  | some v =>
    refine ⟨fun h0 => by simp at h0, fun r hr => ?_, fun x hx => ?_⟩
    · simp at hr
      exact ⟨v, rfl, hr.symm⟩
    · rw [getNumeric, hv] at hx
      simp at hx
      exact ⟨v, rfl, hx.symm⟩

/-- Witness for C3 amended: for the absent name `P` both required paths
fail with the missing-variable error. -/
theorem c3_amended_witness :
    envGet (fun _ => none) "P" =
      Except.error (EnvError.missingRequiredVariable "P") ∧
    getNumeric (fun _ => none) "P" =
      Except.error (EnvError.missingRequiredVariable "P") :=
  (c3_amended_no_undefined (fun _ => none) "P" (by decide)).1 rfl

end EnvPkg

namespace EnvPkg

/-- C4 counterexample: with an empty environment, the batch
`["a ENV.opt.BAZ", "b ENV.FOO"]` produces no diagnostic and no exit — yet
the second line alone is fatal.  The `opt.` line therefore suppresses the
checking of the later lines of its batch, refuting the claim that
processing continues with the remaining lines. -/
theorem c4_counterexample :
    processLines (fun _ => none) ["a ENV.opt.BAZ", "b ENV.FOO"] = ([], none) ∧
    processLines (fun _ => none) ["b ENV.FOO"] = ([strDiag "FOO" none], some 1) :=
  ⟨rfl, rfl⟩

/-- C4 amended: a parsed line whose modifier is `opt.` is skipped without
any environment lookup, diagnostic, or process termination — but, like the
non-matching-line case, it ends the processing of the current batch: the
remaining lines of the batch are not checked (later batches are
unaffected, as each batch is handled independently). -/
theorem c4_amended_opt_ends_batch (env : EnvMap) (line : String)
    (rest : List String) (x : String)
    (hm : strictMatch line = some (some Modifier.opt, x)) :
    processLines env (line :: rest) = ([], none) := by
  have hne : line ≠ "" := strictMatch_ne_empty hm
  simp [processLines, lineStep, hne, hm]

/-- Witness for C4 amended: the `opt.` usage of unset `BAZ` neither logs
nor exits, for any environment (here the empty one). -/
theorem c4_amended_witness :
    processLines (fun _ => none) ["x = ENV.opt.BAZ;", "b ENV.FOO"] = ([], none) :=
  c4_amended_opt_ends_batch (fun _ => none) "x = ENV.opt.BAZ;" ["b ENV.FOO"] "BAZ" rfl

/-- C5: a non-empty line on which the strict extraction regex fails makes
the handler log the one diagnostic carrying the first 100 characters of
the line and return without exiting: later lines of the batch are not
processed, the exit code is `none` (non-fatal, so later batches — separate
invocations of the handler — still run).  This covers in particular every
line matching the broad grep pattern but not the strict one. -/
theorem c5_parse_anomaly_nonfatal (env : EnvMap) (line : String)
    (rest : List String) (hne : line ≠ "") (hm : strictMatch line = none) :
    processLines env (line :: rest) =
      (["Could not parse ENV grep result: " ++ line.take 100], none) := by
  simp [processLines, lineStep, hne, hm]

/-- Witness for C5: a line without any `ENV.` usage is logged (truncated
to 100 characters) and the handler returns with no exit. -/
theorem c5_witness :
    processLines (fun _ => none) ["Binary file matches", "b ENV.FOO"] =
      (["Could not parse ENV grep result: " ++ ("Binary file matches" : String).take 100],
        none) :=
  c5_parse_anomaly_nonfatal (fun _ => none) "Binary file matches" ["b ENV.FOO"]
    (by decide) rfl

/-- C6 counterexample: the environment variable named `num`, present with
the non-empty value `"hello"`, is not returned by the direct lookup — the
`num` sub-view is returned instead — refuting the universally quantified
claim. -/
theorem c6_counterexample :
    envGet (fun n => if n = "num" then some "hello" else none) "num" =
      Except.ok GetResult.subNum ∧
    (Except.ok GetResult.subNum : Except EnvError GetResult) ≠
      Except.ok (GetResult.str "hello") :=
  ⟨rfl, by simp⟩

/-- C6 amended: for every name other than the reserved `num`, `opt`, `ok`,
a present non-empty value is returned exactly by the direct lookup, and an
absent name fails with the missing-required-variable error. -/
theorem c6_amended_get (env : EnvMap) (n : String)
    (hn : n ≠ "num" ∧ n ≠ "opt" ∧ n ≠ "ok") :
    (∀ v, env n = some v → v ≠ "" → envGet env n = Except.ok (GetResult.str v)) ∧
    (env n = none →
      envGet env n = Except.error (EnvError.missingRequiredVariable n)) := by
  obtain ⟨h1, h2, h3⟩ := hn
  rw [envGet_eq_of_not_reserved env h1 h2 h3]
  refine ⟨fun v hv _ => ?_, fun h0 => ?_⟩
  · rw [hv]
  · rw [h0]

/-- Witness for C6 amended: `HOME = "/root"` is returned exactly; the
absent `GONE` fails. -/
theorem c6_amended_witness :
    envGet (fun m => if m = "HOME" then some "/root" else none) "HOME" =
      Except.ok (GetResult.str "/root") ∧
    envGet (fun m => if m = "HOME" then some "/root" else none) "GONE" =
      Except.error (EnvError.missingRequiredVariable "GONE") :=
  ⟨(c6_amended_get (fun m => if m = "HOME" then some "/root" else none) "HOME"
      (by decide)).1 "/root" rfl (by decide),
   (c6_amended_get (fun m => if m = "HOME" then some "/root" else none) "GONE"
      (by decide)).2 rfl⟩

/-- C7: the `opt` sub-view lookup is total: it returns exactly the live
environment entry — the string value when the name is present (even the
empty string), and the absent sentinel `none` (not an empty string) when
the name is unset — and is therefore never an error. -/
theorem c7_getOptional_total (env : EnvMap) (n : String) :
    getOptional env n = Except.ok (env n) :=
  rfl

/-- C8: every write through the accessor, its `opt` view, or its `num`
view fails with the immutable-access error and returns the environment
unchanged, so every subsequent lookup through any of the three read paths
gives the same result as before the attempted write. -/
theorem c8_set_immutable (env : EnvMap) (n v : String) :
    envSet env n v = (Except.error EnvError.immutableAccessError, env) ∧
    optSet env n v = (Except.error EnvError.immutableAccessError, env) ∧
    numSet env n v = (Except.error EnvError.immutableAccessError, env) ∧
    (∀ m, envGet (envSet env n v).2 m = envGet env m) ∧
    (∀ m, getOptional (optSet env n v).2 m = getOptional env m) ∧
    (∀ m, getNumeric (numSet env n v).2 m = getNumeric env m) :=
  ⟨rfl, rfl, rfl, fun _ => rfl, fun _ => rfl, fun _ => rfl⟩

/-- C9: the reserved names `num`, `opt`, `ok` are answered by the outer
`get` trap without consulting the environment and without failing: each
returns its sub-view (or the validator function) for every environment,
so the result is the same under any two environments — in particular an
environment variable of that name is unreadable through this path. -/
theorem c9_reserved_names_shadow (env env2 : EnvMap) :
    envGet env "num" = Except.ok GetResult.subNum ∧
    envGet env "opt" = Except.ok GetResult.subOpt ∧
    envGet env "ok" = Except.ok GetResult.subOk ∧
    envGet env "num" = envGet env2 "num" ∧
    envGet env "opt" = envGet env2 "opt" ∧
    envGet env "ok" = envGet env2 "ok" :=
  ⟨rfl, rfl, rfl, rfl, rfl, rfl⟩

/-- C10: the handler validates only the first (leftmost) usage extracted
from a line: two lines with the same first extracted usage are processed
identically, whatever other usages appear later on the line — so a second
usage can never be looked up and can never trigger a diagnostic or
termination. -/
theorem c10_first_usage_only (env : EnvMap) (l1 l2 : String)
    (rest : List String) (r : Option Modifier × String)
    (h1 : strictMatch l1 = some r) (h2 : strictMatch l2 = some r) :
    processLines env (l1 :: rest) = processLines env (l2 :: rest) := by
  have hne1 : l1 ≠ "" := strictMatch_ne_empty h1
  have hne2 : l2 ≠ "" := strictMatch_ne_empty h2
  obtain ⟨mod, x⟩ := r
  cases mod with
  | none => simp [processLines, lineStep, hne1, hne2, h1, h2]
  | some m => cases m <;> simp [processLines, lineStep, hne1, hne2, h1, h2]

/-- Witness for C10: with `FOO` set and `MISSING` unset, the line
`"a ENV.FOO b ENV.MISSING"` is processed exactly like `"a ENV.FOO"` —
no diagnostic and no exit, although `MISSING` alone would be fatal. -/
theorem c10_witness :
    strictMatch "a ENV.FOO b ENV.MISSING" = some (none, "FOO") ∧
    processLines (fun m => if m = "FOO" then some "1" else none)
        ["a ENV.FOO b ENV.MISSING"] =
      processLines (fun m => if m = "FOO" then some "1" else none) ["a ENV.FOO"] ∧
    processLines (fun m => if m = "FOO" then some "1" else none) ["a ENV.FOO"] =
      ([], none) :=
  ⟨rfl,
   c10_first_usage_only (fun m => if m = "FOO" then some "1" else none)
     "a ENV.FOO b ENV.MISSING" "a ENV.FOO" [] (none, "FOO") rfl rfl,
   rfl⟩

end EnvPkg
